import Mathlib

/-!
Shallow embedding of `src/Cloud.js` from the Parse JS SDK snippet: the public
cloud-function entry points (`run`, `getJobsData`, `startJob`, `getJobStatus`),
the default controller, and the JavaScript value / error semantics they rely
on.  External collaborators that are not under `src/` (the generic
encoder/decoder, `CoreManager`, `ParseError`, `ParseQuery`) are modelled from
the specification, as marked on each such definition.
-/

/-- A JavaScript runtime value as handled by this layer: JSON-style scalars,
`undefined`, arrays, plain objects (association lists of own enumerable
properties; a real JS object cannot hold duplicate keys), and `date` as the
representative decoded domain-object kind produced by the generic decoder. -/
inductive Value where
  | null
  | undefined
  | bool (b : Bool)
  | num (n : Int)
  | str (s : String)
  | date (ms : Int)
  | arr (elems : List Value)
  | obj (fields : List (String × Value))

/-- JavaScript truthiness: `null`, `undefined`, `false`, `0` and the empty
string are falsy; every object (including arrays and dates) is truthy. -/
def truthy : Value → Bool
  | .null => false
  | .undefined => false
  | .bool b => b
  | .num n => n != 0
  | .str s => s != ""
  | .date _ => true
  | .arr _ => true
  | .obj _ => true

/-- Whether `typeof v === "object"` holds in JavaScript.  Note that `null`,
arrays and dates all satisfy it, not only plain objects. -/
def typeofIsObject : Value → Bool
  | .null => true
  | .arr _ => true
  | .obj _ => true
  | .date _ => true
  | _ => false

/-- `v.hasOwnProperty(k)`.  `Cloud.js` only ever queries the key `"result"`,
which is never an own property of an array, a boxed primitive or a date, so
those receivers answer `false`; `null`/`undefined` receivers would throw in
JavaScript, but every call site in `Cloud.js` guards them (short-circuit
truthiness, or a preceding `Object.keys` that throws first). -/
def hasOwn : Value → String → Bool
  | .obj fs, k => (fs.lookup k).isSome
  | _, _ => false

/-- Property read `v[k]`, yielding `undefined` when absent or when the
receiver is a primitive.  `null`/`undefined` receivers would throw in
JavaScript but are guarded at every use in `Cloud.js` (`options` is first
defaulted with `options or \x7b\x7d`, and `decoded` is truthiness-checked). -/
def getProp : Value → String → Value
  | .obj fs, k => (fs.lookup k).getD .undefined
  | _, _ => .undefined

/-- A JavaScript error as observable from this layer: either a built-in
`TypeError` or a typed SDK error carrying a numeric code. -/
inductive JsError where
  | typeError (message : String)
  | parseError (code : Int) (message : String)
deriving DecidableEq, Repr

/-- `Object.keys(v)`, as called on the raw transport reply at line 114 of
`Cloud.js`.  On `null` (and `undefined`) it throws a `TypeError`; on an array
it returns the element indices; on boxed primitives and dates it returns no
own enumerable properties. -/
def objectKeys : Value → Except JsError (List String)
  | .null => .error (.typeError "Cannot convert undefined or null to object")
  | .undefined => .error (.typeError "Cannot convert undefined or null to object")
  | .arr xs => .ok ((List.range xs.length).map toString)
  | .obj fs => .ok (fs.map Prod.fst)
  | .date _ => .ok []
  | .bool _ => .ok []
  | .num _ => .ok []
  | .str _ => .ok []

/-- Modelled from the spec: the result of matching a raw object against the
decoder's tagged date shape (`encode.js`/`decode.js` are not under `src/`).
Yields the timestamp when the object carries the date tag. -/
def dateOf (fs : List (String × Value)) : Option Int :=
  match fs.lookup "__type", fs.lookup "iso" with
  | some (.str "Date"), some (.num n) => some n
  | _, _ => none

mutual

/-- Modelled from the spec: the generic encoder collaborator
`encode(value, disallowUnsaved)` (its source is not under `src/`).  Per the
spec it is a pure, deterministic transformation of application values into a
transport-safe form: passthrough for scalars and a tagged keyed mapping for
nested domain objects (represented here by dates). -/
def encode : Value → Bool → Value
  | .null, _ => .null
  | .undefined, _ => .undefined
  | .bool b, _ => .bool b
  | .num n, _ => .num n
  | .str s, _ => .str s
  | .date n, _ => .obj [("__type", .str "Date"), ("iso", .num n)]
  | .arr xs, d => .arr (encodeList xs d)
  | .obj fs, d => .obj (encodeFields fs d)

/-- Modelled from the spec: elementwise encoding of an ordered sequence. -/
def encodeList : List Value → Bool → List Value
  | [], _ => []
  | v :: t, d => encode v d :: encodeList t d

/-- Modelled from the spec: fieldwise encoding of a keyed mapping. -/
def encodeFields : List (String × Value) → Bool → List (String × Value)
  | [], _ => []
  | (k, v) :: t, d => (k, encode v d) :: encodeFields t d

end

mutual

/-- Modelled from the spec: the generic decoder collaborator
`decode(transportValue)` (its source is not under `src/`).  Per the spec it is
the inverse of `encode` for supported value kinds and a passthrough for
primitives: tagged date mappings become dates, containers are decoded
elementwise. -/
def decode : Value → Value
  | .null => .null
  | .undefined => .undefined
  | .bool b => .bool b
  | .num n => .num n
  | .str s => .str s
  | .date n => .date n
  | .arr xs => .arr (decodeList xs)
  | .obj fs =>
    match dateOf fs with
    | some n => .date n
    | none => .obj (decodeFields fs)

/-- Modelled from the spec: elementwise decoding of an ordered sequence. -/
def decodeList : List Value → List Value
  | [] => []
  | v :: t => decode v :: decodeList t

/-- Modelled from the spec: fieldwise decoding of a keyed mapping. -/
def decodeFields : List (String × Value) → List (String × Value)
  | [] => []
  | (k, v) :: t => (k, decode v) :: decodeFields t

end

/-- The normalized request-options record handed to the controller and the
transport: a keyed record of option name / value pairs (built key by key in
`Cloud.js`, so represented as the list of keys actually set). -/
abbrev JsOptions : Type := List (String × Value)

/-- One transport request, as issued through
`RESTController.request(method, path, body, options)`. -/
structure Request where
  method : String
  path : String
  body : Value
  options : JsOptions

/-- The transport collaborator: `RESTController.request` returns a promise,
modelled as the settled outcome (resolved value or rejection reason) for the
one request it is given. -/
abbrev Transport : Type := Request → Except JsError Value

/-- Modelled from the spec: `ParseError.INVALID_JSON`, the fixed
invalid-JSON-class error code of the SDK (`ParseError.js` is not under
`src/`; numerically 107 in the SDK). -/
def INVALID_JSON : Int := 107

/-- The tail of the `.then` callback attached to the transport promise in
`DefaultController.run` (`Cloud.js` lines 117-121): decode the reply; if the
decoded value is truthy and has an own `result` property, resolve with it,
otherwise resolve with `undefined`. -/
def runDecodeResult (res : Value) : Except JsError Value :=
  let decoded := decode res
  if truthy decoded && hasOwn decoded "result" then
    .ok (getProp decoded "result")
  else
    .ok .undefined

/-- The full `.then` callback (`Cloud.js` lines 113-122): validate the raw
reply envelope, then decode and extract `result`.  The first conjunct of the
guard is `typeof res === "object"`; when it holds, `Object.keys(res)` is
evaluated (throwing on `null`), and the guard fires when there is at least
one key and no own `result` property. -/
def runThen (res : Value) : Except JsError Value :=
  if typeofIsObject res then
    match objectKeys res with
    | .error e => .error e
    | .ok ks =>
      if ks.length > 0 && !(hasOwn res "result") then
        .error (.parseError INVALID_JSON "The server returned an invalid response.")
      else
        runDecodeResult res
  else
    runDecodeResult res

/-- A cloud controller: the three network-bearing operations, each taking the
transport it obtains from the registry (`CoreManager.getRESTController()`)
and returning the list of transport requests it issues together with the
settled promise. -/
structure CloudController where
  run : Transport → String → Value → JsOptions → List Request × Except JsError Value
  getJobsData : Transport → JsOptions → List Request × Except JsError Value
  startJob : Transport → String → Value → JsOptions → List Request × Except JsError Value

/-- `DefaultController` from `Cloud.js` lines 105-138: `run` POSTs the encoded
payload to `functions/<name>` and post-processes the reply with the `.then`
callback; `getJobsData` GETs `cloud_code/jobs/data` with a null body and no
post-processing; `startJob` POSTs the encoded payload to `jobs/<name>` with no
post-processing. -/
def DefaultController : CloudController where
  run := fun transport name data options =>
    let payload := encode data true
    let request : Request :=
      { method := "POST", path := "functions/" ++ name, body := payload, options := options }
    ([request], (transport request).bind runThen)
  getJobsData := fun transport options =>
    let request : Request :=
      { method := "GET", path := "cloud_code/jobs/data", body := .null, options := options }
    ([request], transport request)
  startJob := fun transport name data options =>
    let payload := encode data true
    let request : Request :=
      { method := "POST", path := "jobs/" ++ name, body := payload, options := options }
    ([request], transport request)

/-- Modelled from the spec: the `CoreManager` registry (its source is not
under `src/`).  Per the spec it is a process-wide registry holding the
swappable cloud controller, the transport (REST controller), and the query
collaborator used by `getJobStatus` (`ParseQuery.get`, by collection name,
identifier and options). -/
structure CoreManagerState where
  cloudController : CloudController
  restTransport : Transport
  queryGet : String → String → JsOptions → Except JsError Value

/-- Modelled from the spec: `CoreManager.setCloudController` — registering a
controller replaces the prior one unconditionally. -/
def setCloudController (cm : CoreManagerState) (c : CloudController) : CoreManagerState :=
  { cm with cloudController := c }

/-- The registry as it stands after this module loads (`Cloud.js` line 140
registers `DefaultController`), over an arbitrary transport and query
collaborator. -/
def registryAfterLoad (t : Transport)
    (q : String → String → JsOptions → Except JsError Value) : CoreManagerState :=
  { cloudController := DefaultController, restTransport := t, queryGet := q }

/-- The synchronous outcome of a public entry point: either a value thrown
synchronously (never delivered through the promise), or the returned
promise. -/
inductive Outcome where
  | thrown (e : JsError)
  | promise (result : Except JsError Value)

/-- The request-options normalization block of `run` (`Cloud.js` lines
43-52): starting from an empty record, each of `useMasterKey`, `sessionToken`
and `context` is copied in only when its caller-supplied value passes the
corresponding guard (truthiness for the first two; truthiness and
`typeof === "object"` for `context`). -/
def buildRunRequestOptions (options : Value) : JsOptions :=
  let requestOptions : JsOptions := []
  let requestOptions :=
    if truthy (getProp options "useMasterKey") then
      requestOptions ++ [("useMasterKey", getProp options "useMasterKey")]
    else requestOptions
  let requestOptions :=
    if truthy (getProp options "sessionToken") then
      requestOptions ++ [("sessionToken", getProp options "sessionToken")]
    else requestOptions
  let requestOptions :=
    if truthy (getProp options "context") && typeofIsObject (getProp options "context") then
      requestOptions ++ [("context", getProp options "context")]
    else requestOptions
  requestOptions

/-- `Parse.Cloud.run` (`Cloud.js` lines 36-55): default the options record,
validate the name synchronously, normalize the options, and delegate to the
registered cloud controller.  The first component is the list of transport
requests issued by the call. -/
def Cloud.run (cm : CoreManagerState) (name data options : Value) : List Request × Outcome :=
  let options := if truthy options then options else .obj []
  match name with
  | .str s =>
    if s.length = 0 then
      ([], .thrown (.typeError "Cloud function name must be a string."))
    else
      let requestOptions := buildRunRequestOptions options
      let r := cm.cloudController.run cm.restTransport s data requestOptions
      (r.1, .promise r.2)
  | _ => ([], .thrown (.typeError "Cloud function name must be a string."))

/-- `Parse.Cloud.getJobsData` (`Cloud.js` lines 65-70): no arguments, forced
`useMasterKey`, delegate to the registered cloud controller. -/
def Cloud.getJobsData (cm : CoreManagerState) : List Request × Except JsError Value :=
  let requestOptions : JsOptions := [("useMasterKey", .bool true)]
  cm.cloudController.getJobsData cm.restTransport requestOptions

/-- `Parse.Cloud.startJob` (`Cloud.js` lines 82-90): validate the name
synchronously, force `useMasterKey`, delegate to the registered cloud
controller. -/
def Cloud.startJob (cm : CoreManagerState) (name data : Value) : List Request × Outcome :=
  match name with
  | .str s =>
    if s.length = 0 then
      ([], .thrown (.typeError "Cloud job name must be a string."))
    else
      let requestOptions : JsOptions := [("useMasterKey", .bool true)]
      let r := cm.cloudController.startJob cm.restTransport s data requestOptions
      (r.1, .promise r.2)
  | _ => ([], .thrown (.typeError "Cloud job name must be a string."))

/-- `Parse.Cloud.getJobStatus` (`Cloud.js` lines 100-103): a query against the
`_JobStatus` collection with forced `useMasterKey`.  Modelled from the spec
where it leaves `src/`: `ParseQuery` is not under `src/`; per the spec the
query collaborator is constructible by collection name and exposes
`get(id, options)`, so `new ParseQuery("_JobStatus").get(jobStatusId,
useMasterKey)` is the registry's query collaborator applied to those
arguments. -/
def Cloud.getJobStatus (cm : CoreManagerState) (jobStatusId : String) : Except JsError Value :=
  cm.queryGet "_JobStatus" jobStatusId [("useMasterKey", .bool true)]

/-- A simulated transport that resolves every request with an empty object,
used to instantiate universally quantified statements at concrete inputs. -/
def trivialTransport : Transport := fun _ => .ok (.obj [])

/-- A simulated transport that rejects every request, used to observe
passthrough of transport failures at concrete inputs. -/
def downTransport : Transport := fun _ => .error (.typeError "down")

/-- A simulated query collaborator resolving every lookup with `undefined`. -/
def trivialQueryGet : String → String → JsOptions → Except JsError Value :=
  fun _ _ _ => .ok .undefined

/-- A concrete registry state built over the simulated collaborators. -/
def sampleRegistry : CoreManagerState := registryAfterLoad trivialTransport trivialQueryGet

/-- A mock cloud controller whose three operations issue no requests and
resolve with a fixed value, used to observe controller substitution. -/
def constController (v : Value) : CloudController where
  run := fun _ _ _ _ => ([], .ok v)
  getJobsData := fun _ _ => ([], .ok v)
  startJob := fun _ _ _ _ => ([], .ok v)

/-- Decoding an empty field list yields an empty field list. -/
@[simp] theorem decodeFields_nil : decodeFields [] = [] := by
  rw [decodeFields]

/-- Decoding a field list decodes the head value and recurses. -/
@[simp] theorem decodeFields_cons (k : String) (v : Value) (t : List (String × Value)) :
    decodeFields ((k, v) :: t) = (k, decode v) :: decodeFields t := by
  rw [decodeFields]

/-- An object that does not carry the date tag decodes fieldwise. -/
theorem decode_obj_of_dateOf_none {fs : List (String × Value)} (h : dateOf fs = none) :
    decode (.obj fs) = .obj (decodeFields fs) := by
  rw [decode, h]

/-- A singleton `result` envelope does not carry the date tag. -/
@[simp] theorem dateOf_result_singleton (w : Value) : dateOf [("result", w)] = none := by
  simp [dateOf, List.lookup]

/-- In the callback tail, the truthiness conjunct is redundant: only plain
objects have an own `result` property, and objects are always truthy. -/
theorem truthy_and_hasOwn (d : Value) (k : String) :
    (truthy d && hasOwn d k) = hasOwn d k := by
  cases d <;> simp [truthy, hasOwn]

/-- A string has length zero exactly when it is the empty string (the name
check in `run` and `startJob` tests `name.length === 0`). -/
theorem string_length_eq_zero_iff (s : String) : s.length = 0 ↔ s = "" := by
  constructor
  · intro h
    cases s with
    | mk data =>
      have hd : data = [] := List.length_eq_zero.mp h
      subst hd; rfl
  · intro h
    subst h; rfl

/-- The callback resolves a well-formed `result` envelope with the decoded
`result` field. -/
theorem runThen_result_envelope (w : Value) :
    runThen (.obj [("result", w)]) = .ok (decode w) := by
  rw [runThen]
  simp [typeofIsObject, objectKeys, hasOwn, List.lookup, runDecodeResult,
    decode_obj_of_dateOf_none (dateOf_result_singleton w), truthy, getProp]

/-- Normal form of the options-normalization block: the concatenation of the
three individually guarded singleton records, in source order. -/
theorem buildRunRequestOptions_eq (options : Value) :
    buildRunRequestOptions options
      = (if truthy (getProp options "useMasterKey")
           then [("useMasterKey", getProp options "useMasterKey")] else [])
        ++ (if truthy (getProp options "sessionToken")
              then [("sessionToken", getProp options "sessionToken")] else [])
        ++ (if truthy (getProp options "context") && typeofIsObject (getProp options "context")
              then [("context", getProp options "context")] else []) := by
  rw [buildRunRequestOptions]
  cases truthy (getProp options "useMasterKey") <;>
  cases truthy (getProp options "sessionToken") <;>
  cases truthy (getProp options "context") && typeofIsObject (getProp options "context") <;>
    simp

/-- The `context` guard of `run` (truthy and `typeof === "object"`) holds
exactly for non-null object-typed values. -/
theorem context_guard_iff (v : Value) :
    (truthy v && typeofIsObject v) = true ↔ (typeofIsObject v = true ∧ v ≠ .null) := by
  cases v <;> simp [truthy, typeofIsObject]

/-- Key membership in the normalized options record, characterised key by
key by the corresponding source guard. -/
theorem mem_buildRunRequestOptions (options : Value) (k : String) :
    k ∈ (buildRunRequestOptions options).map Prod.fst ↔
      (k = "useMasterKey" ∧ truthy (getProp options "useMasterKey") = true)
      ∨ (k = "sessionToken" ∧ truthy (getProp options "sessionToken") = true)
      ∨ (k = "context"
          ∧ (truthy (getProp options "context")
              && typeofIsObject (getProp options "context")) = true) := by
  rw [buildRunRequestOptions_eq]
  cases hu : truthy (getProp options "useMasterKey") <;>
  cases hs : truthy (getProp options "sessionToken") <;>
  cases hc : truthy (getProp options "context") && typeofIsObject (getProp options "context") <;>
    simp

/-- Reading a property other than the head key of an object skips the head
field. -/
theorem getProp_cons_ne (k : String) (v : Value) (rest : List (String × Value))
    (k2 : String) (hne : k ≠ k2) :
    getProp (.obj ((k, v) :: rest)) k2 = getProp (.obj rest) k2 := by
  simp [getProp, List.lookup, beq_eq_false_iff_ne.mpr (Ne.symm hne)]

/-- C1: for every transport reply to `run` that is a non-null keyed mapping
with at least one key and no `result` key, the returned promise rejects with
the typed SDK error carrying the fixed invalid-JSON code and the message
"The server returned an invalid response." (a `parseError`, distinct by
construction from transport-originated rejections, which are passed through
unchanged). -/
theorem run_rejects_invalid_envelope (fs : List (String × Value)) (name : String)
    (data : Value) (options : JsOptions)
    (h1 : fs ≠ []) (h2 : hasOwn (.obj fs) "result" = false) :
    (DefaultController.run (fun _ => .ok (.obj fs)) name data options).2
      = .error (.parseError INVALID_JSON "The server returned an invalid response.") := by
  simp [DefaultController, Except.bind, runThen, typeofIsObject, objectKeys, h2,
    List.length_pos, h1]

/-- C1 witness: the reply `\x7bfoo: 1\x7d` makes `run` reject with the
invalid-response error. -/
theorem run_rejects_invalid_envelope_witness :
    ([(("foo" : String), Value.num 1)] ≠ ([] : List (String × Value)))
    ∧ (DefaultController.run (fun _ => .ok (.obj [("foo", .num 1)])) "hello" .undefined []).2
        = .error (.parseError INVALID_JSON "The server returned an invalid response.") :=
  ⟨by simp, run_rejects_invalid_envelope [("foo", .num 1)] "hello" .undefined []
    (by simp) (by rfl)⟩

/-- C2 counterexample: two transport replies that are not non-null keyed
mappings lacking `result` on which `run` nevertheless rejects — a `null`
reply (the guard tests `typeof`, which classes `null` as an object, so
`Object.keys(null)` throws a TypeError), and a non-empty array reply (also
`typeof === "object"`, with keys and no own `result`, so the invalid-response
error fires). -/
theorem run_null_and_array_replies_reject :
    (DefaultController.run (fun _ => .ok .null) "hello" .undefined []).2
      = .error (.typeError "Cannot convert undefined or null to object")
    ∧ (DefaultController.run (fun _ => .ok (.arr [.num 1])) "hello" .undefined []).2
      = .error (.parseError INVALID_JSON "The server returned an invalid response.") :=
  ⟨rfl, rfl⟩

/-- C2 amended: for every transport reply that is not a non-null keyed
mapping with at least one key lacking `result`, and that is moreover neither
`null` nor a non-empty ordered sequence, `run` does not reject: it resolves
with the decoded `result` value when the decoded value contains one, and with
`undefined` otherwise. -/
theorem run_benign_reply_resolves (res : Value) (name : String) (data : Value)
    (options : JsOptions)
    (hnull : res ≠ .null)
    (harr : ∀ xs, res = .arr xs → xs = [])
    (hobj : ∀ fs, res = .obj fs → fs ≠ [] → hasOwn (.obj fs) "result" = true) :
    (DefaultController.run (fun _ => .ok res) name data options).2
      = .ok (if hasOwn (decode res) "result" then getProp (decode res) "result" else .undefined) := by
  have hbase : (DefaultController.run (fun _ => .ok res) name data options).2 = runThen res := rfl
  rw [hbase]
  have htail : runDecodeResult res
      = .ok (if hasOwn (decode res) "result" then getProp (decode res) "result" else .undefined) := by
    rw [runDecodeResult, truthy_and_hasOwn]
    split <;> rfl
  cases res with
  | null => exact absurd rfl hnull
  | undefined => rw [runThen]; simpa [typeofIsObject] using htail
  | bool b => rw [runThen]; simpa [typeofIsObject] using htail
  | num n => rw [runThen]; simpa [typeofIsObject] using htail
  | str s => rw [runThen]; simpa [typeofIsObject] using htail
  | date n => rw [runThen]; simpa [typeofIsObject, objectKeys] using htail
  | arr xs =>
    have hx : xs = [] := harr xs rfl
    subst hx
    rw [runThen]
    simpa [typeofIsObject, objectKeys] using htail
  | obj fs =>
    rw [runThen]
    rcases eq_or_ne fs [] with hfs | hfs
    · subst hfs
      simpa [typeofIsObject, objectKeys] using htail
    · have hres : hasOwn (.obj fs) "result" = true := hobj fs rfl hfs
      simpa [typeofIsObject, objectKeys, hres] using htail

/-- C2 amended witness: the reply `\x7bresult: 2\x7d` resolves with its
decoded `result` field. -/
theorem run_benign_reply_resolves_witness :
    (Value.obj [("result", Value.num 2)] ≠ .null)
    ∧ (DefaultController.run (fun _ => .ok (.obj [("result", .num 2)])) "hello" .undefined []).2
        = .ok (if hasOwn (decode (.obj [("result", .num 2)])) "result"
               then getProp (decode (.obj [("result", .num 2)])) "result" else .undefined) :=
  ⟨by simp, run_benign_reply_resolves (.obj [("result", .num 2)]) "hello" .undefined []
    (by simp) (by intro xs hx; cases hx) (by intro fs hf hne; injection hf with h2; subst h2; rfl)⟩

/-- C3: for every non-empty name and every payload, if the transport resolves
with the envelope carrying `result = encode(P, true)`, then `run(name, P,
opts)` resolves with `decode(encode(P, true))` — the decoded `result` field,
exercising encode/decode symmetry through the call. -/
theorem run_round_trip (P : Value) (s : String) (options : Value)
    (q : String → String → JsOptions → Except JsError Value) (h : s ≠ "") :
    (Cloud.run (registryAfterLoad (fun _ => .ok (.obj [("result", encode P true)])) q)
        (.str s) P options).2
      = .promise (.ok (decode (encode P true))) := by
  have hlen : s.length ≠ 0 := by simpa [string_length_eq_zero_iff] using h
  rw [Cloud.run]
  simp only [registryAfterLoad, if_neg hlen]
  exact congrArg Outcome.promise (runThen_result_envelope (encode P true))

/-- C3 witness: the round trip at the payload `date(3)`, whose encoding is a
tagged mapping and whose decoding restores the date. -/
theorem run_round_trip_witness :
    (("f" : String) ≠ "")
    ∧ (Cloud.run (registryAfterLoad (fun _ => .ok (.obj [("result", encode (.date 3) true)]))
          trivialQueryGet) (.str "f") (.date 3) .null).2
        = .promise (.ok (decode (encode (.date 3) true))) :=
  ⟨by decide, run_round_trip (.date 3) "f" .null trivialQueryGet (by decide)⟩

/-- C4 counterexample: substituting a different registered cloud controller
changes the behaviour of `run` but leaves `getJobStatus` unchanged, because
`getJobStatus` delegates to the query collaborator rather than to
`CoreManager.getCloudController()`. -/
theorem getJobStatus_ignores_cloud_controller :
    ((Cloud.run (setCloudController sampleRegistry (constController (.num 1)))
        (.str "f") .undefined .undefined).2
      ≠ (Cloud.run (setCloudController sampleRegistry (constController (.num 2)))
        (.str "f") .undefined .undefined).2)
    ∧ Cloud.getJobStatus (setCloudController sampleRegistry (constController (.num 1))) "abc123"
      = Cloud.getJobStatus (setCloudController sampleRegistry (constController (.num 2))) "abc123" := by
  constructor
  · intro h
    have h2 : Outcome.promise (.ok (.num 1)) = Outcome.promise (.ok (.num 2)) := h
    simp at h2
  · rfl

/-- C4 amended: `run`, `getJobsData` and `startJob` perform their
network-bearing work by delegating to the controller held in the registry, so
substituting the registered cloud controller changes those three; whereas
`getJobStatus` delegates to the query collaborator and is unaffected by the
registered cloud controller. -/
theorem controller_delegation (cm : CoreManagerState) (s : String) (data options : Value)
    (c : CloudController) (jobId : String) (h : s ≠ "") :
    Cloud.run cm (.str s) data options
      = ((cm.cloudController.run cm.restTransport s data
            (buildRunRequestOptions (if truthy options then options else .obj []))).1,
         .promise (cm.cloudController.run cm.restTransport s data
            (buildRunRequestOptions (if truthy options then options else .obj []))).2)
    ∧ Cloud.getJobsData cm
      = cm.cloudController.getJobsData cm.restTransport [("useMasterKey", .bool true)]
    ∧ Cloud.startJob cm (.str s) data
      = ((cm.cloudController.startJob cm.restTransport s data [("useMasterKey", .bool true)]).1,
         .promise (cm.cloudController.startJob cm.restTransport s data
            [("useMasterKey", .bool true)]).2)
    ∧ Cloud.getJobStatus (setCloudController cm c) jobId
      = cm.queryGet "_JobStatus" jobId [("useMasterKey", .bool true)] := by
  have hlen : s.length ≠ 0 := by simpa [string_length_eq_zero_iff] using h
  refine ⟨?_, rfl, ?_, rfl⟩
  · rw [Cloud.run, if_neg hlen]
  · rw [Cloud.startJob, if_neg hlen]

/-- C4 amended witness: `getJobsData` at the concrete sample registry equals
the registered controller applied to the forced elevated-privilege options. -/
theorem controller_delegation_witness :
    (("job1" : String) ≠ "")
    ∧ Cloud.getJobsData sampleRegistry
      = sampleRegistry.cloudController.getJobsData sampleRegistry.restTransport
          [("useMasterKey", .bool true)] :=
  ⟨by decide,
   (controller_delegation sampleRegistry "job1" .undefined .undefined (constController (.num 1))
      "abc123" (by decide)).2.1⟩

/-- C5: for every name that is the empty string or not a string, `run` and
`startJob` throw the invalid-argument TypeError synchronously (the `thrown`
outcome, never a rejected promise) and issue zero transport requests; for
every non-empty string name the outcome is a promise, so no such error is
raised. -/
theorem invalid_name_throws_synchronously (cm : CoreManagerState) (data options name : Value) :
    ((∀ s : String, name ≠ .str s) ∨ name = .str "" →
      Cloud.run cm name data options
          = ([], .thrown (.typeError "Cloud function name must be a string."))
        ∧ Cloud.startJob cm name data
          = ([], .thrown (.typeError "Cloud job name must be a string.")))
    ∧ (∀ s : String, s ≠ "" →
        (∃ p, (Cloud.run cm (.str s) data options).2 = .promise p)
        ∧ (∃ p, (Cloud.startJob cm (.str s) data).2 = .promise p)) := by
  constructor
  · intro hcase
    rcases hcase with hns | hempty
    · cases name with
      | str s => exact absurd rfl (hns s)
      | null => exact ⟨rfl, rfl⟩
      | undefined => exact ⟨rfl, rfl⟩
      | bool b => exact ⟨rfl, rfl⟩
      | num n => exact ⟨rfl, rfl⟩
      | date n => exact ⟨rfl, rfl⟩
      | arr xs => exact ⟨rfl, rfl⟩
      | obj fs => exact ⟨rfl, rfl⟩
    · subst hempty
      exact ⟨rfl, rfl⟩
  · intro s hs
    have hlen : s.length ≠ 0 := by simpa [string_length_eq_zero_iff] using hs
    constructor
    · exact ⟨_, by rw [Cloud.run, if_neg hlen]⟩
    · exact ⟨_, by rw [Cloud.startJob, if_neg hlen]⟩

/-- C5 witness: the numeric name `3` is thrown on synchronously with zero
requests, and the non-empty name "go" yields a promise. -/
theorem invalid_name_throws_synchronously_witness :
    Cloud.run sampleRegistry (.num 3) .undefined .undefined
        = ([], .thrown (.typeError "Cloud function name must be a string."))
    ∧ (∃ p, (Cloud.run sampleRegistry (.str "go") .undefined .undefined).2 = .promise p) :=
  ⟨((invalid_name_throws_synchronously sampleRegistry .undefined .undefined (.num 3)).1
      (Or.inl fun s h => by cases h)).1,
   ((invalid_name_throws_synchronously sampleRegistry .undefined .undefined (.str "go")).2 "go"
      (by decide)).1⟩

/-- C6: the outgoing normalized options record of `run` contains at most the
keys `useMasterKey`, `sessionToken` and `context` (any other caller-supplied
option is dropped); keys whose caller-supplied value is absent (`undefined`)
are omitted entirely; and `context` appears if and only if its value is a
non-null object-typed value (a non-null keyed mapping, in the sense of the
`typeof` test the source performs). -/
theorem run_options_normalized (options : Value) :
    (∀ k, k ∈ (buildRunRequestOptions options).map Prod.fst →
        k = "useMasterKey" ∨ k = "sessionToken" ∨ k = "context")
    ∧ (getProp options "useMasterKey" = .undefined →
        "useMasterKey" ∉ (buildRunRequestOptions options).map Prod.fst)
    ∧ (getProp options "sessionToken" = .undefined →
        "sessionToken" ∉ (buildRunRequestOptions options).map Prod.fst)
    ∧ (getProp options "context" = .undefined →
        "context" ∉ (buildRunRequestOptions options).map Prod.fst)
    ∧ ("context" ∈ (buildRunRequestOptions options).map Prod.fst ↔
        (typeofIsObject (getProp options "context") = true
          ∧ getProp options "context" ≠ .null)) := by
  refine ⟨?_, ?_, ?_, ?_, ?_⟩
  · intro k hk
    rcases (mem_buildRunRequestOptions options k).mp hk with ⟨hk2, _⟩ | ⟨hk2, _⟩ | ⟨hk2, _⟩ <;>
      simp [hk2]
  · intro h hmem
    rcases (mem_buildRunRequestOptions options _).mp hmem with ⟨_, ht⟩ | ⟨hk2, _⟩ | ⟨hk2, _⟩
    · rw [h] at ht; exact absurd ht (by decide)
    · exact absurd hk2 (by decide)
    · exact absurd hk2 (by decide)
  · intro h hmem
    rcases (mem_buildRunRequestOptions options _).mp hmem with ⟨hk2, _⟩ | ⟨_, ht⟩ | ⟨hk2, _⟩
    · exact absurd hk2 (by decide)
    · rw [h] at ht; exact absurd ht (by decide)
    · exact absurd hk2 (by decide)
  · intro h hmem
    rcases (mem_buildRunRequestOptions options _).mp hmem with ⟨hk2, _⟩ | ⟨hk2, _⟩ | ⟨_, ht⟩
    · exact absurd hk2 (by decide)
    · exact absurd hk2 (by decide)
    · rw [h] at ht; exact absurd ht (by decide)
  · refine Iff.trans ?_ (context_guard_iff (getProp options "context"))
    rw [mem_buildRunRequestOptions options "context"]
    constructor
    · intro hd
      rcases hd with ⟨hk2, _⟩ | ⟨hk2, _⟩ | ⟨_, ht⟩
      · exact absurd hk2 (by decide)
      · exact absurd hk2 (by decide)
      · exact ht
    · intro ht
      exact Or.inr (Or.inr ⟨rfl, ht⟩)

/-- C6 witness: an options record with only a session token and an
unrecognized key never forwards `useMasterKey`. -/
theorem run_options_normalized_witness :
    (getProp (.obj [("sessionToken", .str "tok"), ("foo", .num 7)]) "useMasterKey" = .undefined)
    ∧ "useMasterKey" ∉ (buildRunRequestOptions
        (.obj [("sessionToken", .str "tok"), ("foo", .num 7)])).map Prod.fst :=
  ⟨rfl, (run_options_normalized (.obj [("sessionToken", .str "tok"), ("foo", .num 7)])).2.1 rfl⟩

/-- C7: for every non-empty string name and every payload, `run` issues
exactly one transport request, with method POST, path `functions/<name>`, and
body `encode(payload, true)` — the disallow-unsaved flag set. -/
theorem run_issues_single_post (t : Transport)
    (q : String → String → JsOptions → Except JsError Value)
    (s : String) (data options : Value) (h : s ≠ "") :
    (Cloud.run (registryAfterLoad t q) (.str s) data options).1
      = [{ method := "POST", path := "functions/" ++ s, body := encode data true,
           options := buildRunRequestOptions (if truthy options then options else .obj []) }] := by
  have hlen : s.length ≠ 0 := by simpa [string_length_eq_zero_iff] using h
  rw [Cloud.run, if_neg hlen]
  rfl

/-- C7 witness: the single POST issued by `run("f", 5)`. -/
theorem run_issues_single_post_witness :
    (("f" : String) ≠ "")
    ∧ (Cloud.run (registryAfterLoad trivialTransport trivialQueryGet)
          (.str "f") (.num 5) .undefined).1
        = [{ method := "POST", path := "functions/" ++ "f", body := encode (.num 5) true,
             options := buildRunRequestOptions (if truthy .undefined then .undefined else .obj []) }] :=
  ⟨by decide,
   run_issues_single_post trivialTransport trivialQueryGet "f" (.num 5) .undefined (by decide)⟩

/-- C8: for every non-empty string name and payload, `startJob` issues exactly
one POST to `jobs/<name>` with body `encode(payload, true)` and outgoing
options forcing `useMasterKey = true` (the entry point takes no caller
options), and its promise is exactly the transport's outcome, with no
response-shape validation. -/
theorem startJob_request_shape (t : Transport)
    (q : String → String → JsOptions → Except JsError Value)
    (s : String) (data : Value) (h : s ≠ "") :
    Cloud.startJob (registryAfterLoad t q) (.str s) data
      = ([{ method := "POST", path := "jobs/" ++ s, body := encode data true,
            options := [("useMasterKey", .bool true)] }],
         .promise (t { method := "POST", path := "jobs/" ++ s, body := encode data true,
                       options := [("useMasterKey", .bool true)] })) := by
  have hlen : s.length ≠ 0 := by simpa [string_length_eq_zero_iff] using h
  rw [Cloud.startJob, if_neg hlen]
  rfl

/-- C8 witness: `startJob("j", 4)` over a failing transport passes the
transport outcome through unchanged. -/
theorem startJob_request_shape_witness :
    (("j" : String) ≠ "")
    ∧ Cloud.startJob (registryAfterLoad downTransport trivialQueryGet) (.str "j") (.num 4)
        = ([{ method := "POST", path := "jobs/" ++ "j", body := encode (.num 4) true,
              options := [("useMasterKey", .bool true)] }],
           .promise (downTransport
             { method := "POST", path := "jobs/" ++ "j",
               body := encode (.num 4) true,
               options := [("useMasterKey", .bool true)] })) :=
  ⟨by decide,
   startJob_request_shape downTransport trivialQueryGet "j" (.num 4) (by decide)⟩

/-- C9: every call to `getJobsData` issues exactly one transport request with
method GET, fixed path `cloud_code/jobs/data`, a null body, and options
containing `useMasterKey = true`, and resolves with the transport's outcome
passed through unchanged. -/
theorem getJobsData_request_shape (t : Transport)
    (q : String → String → JsOptions → Except JsError Value) :
    Cloud.getJobsData (registryAfterLoad t q)
      = ([{ method := "GET", path := "cloud_code/jobs/data", body := .null,
            options := [("useMasterKey", .bool true)] }],
         t { method := "GET", path := "cloud_code/jobs/data", body := .null,
             options := [("useMasterKey", .bool true)] }) := rfl

/-- C10: forwarding of `useMasterKey` and `sessionToken` in `run` is decided
by truthiness, not presence: an explicit `useMasterKey: false` or an explicit
empty-string `sessionToken` is omitted from the outgoing options entirely,
and (for a well-formed object, whose remaining fields do not reuse the key)
the outgoing options are exactly those produced had the caller left the key
unset. -/
theorem truthiness_forwarding :
    (∀ options : Value, getProp options "useMasterKey" = .bool false →
        "useMasterKey" ∉ (buildRunRequestOptions options).map Prod.fst)
    ∧ (∀ options : Value, getProp options "sessionToken" = .str "" →
        "sessionToken" ∉ (buildRunRequestOptions options).map Prod.fst)
    ∧ (∀ rest : List (String × Value), rest.lookup "useMasterKey" = none →
        buildRunRequestOptions (.obj (("useMasterKey", .bool false) :: rest))
          = buildRunRequestOptions (.obj rest))
    ∧ (∀ rest : List (String × Value), rest.lookup "sessionToken" = none →
        buildRunRequestOptions (.obj (("sessionToken", .str "") :: rest))
          = buildRunRequestOptions (.obj rest)) := by
  refine ⟨?_, ?_, ?_, ?_⟩
  · intro options h hmem
    rcases (mem_buildRunRequestOptions options _).mp hmem with ⟨_, ht⟩ | ⟨hk2, _⟩ | ⟨hk2, _⟩
    · rw [h] at ht; exact absurd ht (by decide)
    · exact absurd hk2 (by decide)
    · exact absurd hk2 (by decide)
  · intro options h hmem
    rcases (mem_buildRunRequestOptions options _).mp hmem with ⟨hk2, _⟩ | ⟨_, ht⟩ | ⟨hk2, _⟩
    · exact absurd hk2 (by decide)
    · rw [h] at ht; exact absurd ht (by decide)
    · exact absurd hk2 (by decide)
  · intro rest h
    have h1 : getProp (.obj (("useMasterKey", Value.bool false) :: rest)) "useMasterKey"
        = .bool false := by
      simp [getProp, List.lookup]
    have h2 : getProp (.obj rest) "useMasterKey" = .undefined := by
      simp [getProp, h]
    have h3 := getProp_cons_ne "useMasterKey" (.bool false) rest "sessionToken" (by decide)
    have h4 := getProp_cons_ne "useMasterKey" (.bool false) rest "context" (by decide)
    rw [buildRunRequestOptions_eq, buildRunRequestOptions_eq, h1, h2, h3, h4]
    simp [truthy]
  · intro rest h
    have h1 : getProp (.obj (("sessionToken", Value.str "") :: rest)) "sessionToken"
        = .str "" := by
      simp [getProp, List.lookup]
    have h2 : getProp (.obj rest) "sessionToken" = .undefined := by
      simp [getProp, h]
    have h3 := getProp_cons_ne "sessionToken" (.str "") rest "useMasterKey" (by decide)
    have h4 := getProp_cons_ne "sessionToken" (.str "") rest "context" (by decide)
    rw [buildRunRequestOptions_eq, buildRunRequestOptions_eq, h1, h2, h3, h4]
    simp [truthy]

/-- C10 witness: an options object holding only `useMasterKey: false`
normalizes exactly as the empty options object does. -/
theorem truthiness_forwarding_witness :
    (([] : List (String × Value)).lookup "useMasterKey" = none)
    ∧ buildRunRequestOptions (.obj (("useMasterKey", .bool false) :: []))
        = buildRunRequestOptions (.obj []) :=
  ⟨rfl, truthiness_forwarding.2.2.1 [] rfl⟩
